import Mathlib

/-!
Verification of the WebRTC browser peer-connection connector
(`WebRTCBrowserPeerConnectionConnector` and its free helper functions).

The adapter wraps one native `RTCPeerConnection`. We shallowly embed:
  * the observable state of the native connection (`RTCPeerConnection`),
  * the host engine's fallible primitives as an environment (`HostEnv`)
    that decides whether each native call succeeds and what it returns,
  * a trace of the native calls the adapter issues (`HostCall`), used to
    state ordering and "no further host call" properties,
  * every adapter operation the claims mention, translated line by line
    from the source.
Callbacks and media objects are identified by natural numbers; session
descriptions carry their SDP payload.
-/

namespace WebRTCBrowser

/-- Session description (offer or answer): a type tag and an SDP payload. -/
structure SessionDesc where
  sdpType : String
  sdp : String
  deriving DecidableEq, Repr

/-- A transceiver of the native connection: the identity of its sender and
its current direction string. -/
structure Transceiver where
  senderId : Nat
  direction : String
  deriving DecidableEq, Repr

/-- One encoding layer of the RTP send parameters.  `rid` stands for the
fields `setEncodingParameters` does not touch. -/
structure RTCRtpEncoding where
  scaleResolutionDownBy : Int
  maxFramerate : Int
  maxBitrate : Int
  priority : String
  rid : Nat
  deriving DecidableEq, Repr

/-- The RTP send parameter set returned by `getParameters`. -/
structure RTCRtpParameters where
  encodings : List RTCRtpEncoding
  deriving DecidableEq, Repr

/-- A native data channel: its observable fields and its three callback
slots (callbacks are identified by numbers, `none` is a null slot). -/
structure RTCDataChannel where
  label : String
  bufferedAmount : Nat
  bufferedAmountLowThreshold : Nat
  readyState : String
  onbufferedamountlow : Option Nat
  onclose : Option Nat
  onmessage : Option Nat
  deriving DecidableEq, Repr

/-- Contents of the native `ondatachannel` slot.  The adapter's setter never
stores the raw callback: a non-null callback is always stored behind the
wrapping closure, which `wrapping` records. -/
inductive DataChannelSlot where
  | wrapping (cb : Nat)
  deriving DecidableEq, Repr

/-- Observable state of the native `RTCPeerConnection` the adapter owns. -/
structure RTCPeerConnection where
  iceServers : List String
  remoteDescription : Option SessionDesc
  localDescription : Option SessionDesc
  transceivers : List Transceiver
  onicecandidate : Option Nat
  onconnectionstatechange : Option Nat
  ondatachannel : Option DataChannelSlot
  onicegatheringstatechange : Option Nat
  oniceconnectionstatechange : Option Nat
  ontrack : Option Nat
  onnegotiationneeded : Option Nat
  deriving DecidableEq, Repr

/-- Offer options of the connector interface; `handshakeRestart` is an
optional boolean field (`options?.handshakeRestart` is tested for
truthiness). -/
structure OfferOptions where
  handshakeRestart : Option Bool
  deriving DecidableEq, Repr

/-- The configuration handed to the constructor: the handshake (ICE)
servers. -/
structure PeerConnectionConfig where
  handshakeServers : List String
  deriving DecidableEq, Repr

/-- One entry of a native stats report. -/
abbrev StatsValue := Nat

/-- A native `RTCStatsReport`: the sequence of values `forEach` visits. -/
abbrev RTCStatsReport := List StatsValue

/-- Trace of effectful native calls issued by the adapter.  State queries
(`getParameters`, `getStats`, `getTransceivers`) are reads of host state
and are not traced. -/
inductive HostCall where
  | setRemote (d : SessionDesc)
  | mkAnswer
  | setLocal (d : SessionDesc)
  | mkOffer (iceRestart : Bool)
  | setSenderParameters (senderId : Nat) (ps : RTCRtpParameters)
  deriving DecidableEq, Repr

/-- The host engine: decides the outcome of each fallible native call and
answers state queries.  A `false` / `none` outcome models a rejected
promise or an absent value. -/
structure HostEnv where
  setRemoteOk : SessionDesc → RTCPeerConnection → Bool
  answerFor : RTCPeerConnection → Option SessionDesc
  setLocalOk : SessionDesc → RTCPeerConnection → Bool
  offerFor : Bool → RTCPeerConnection → Option SessionDesc
  getStats : Nat → Option RTCStatsReport
  replaceTrackOk : Nat → Nat → RTCPeerConnection → Bool
  getParameters : Nat → RTCPeerConnection → Option RTCRtpParameters
  setParamsOk : Nat → RTCRtpParameters → Bool

/-- Native `setRemoteDescription`: on success the description is committed,
on failure the connection is unchanged and the rejection propagates. -/
def hostSetRemoteDescription (env : HostEnv) (d : SessionDesc)
    (c : RTCPeerConnection) : Except Unit RTCPeerConnection :=
  if env.setRemoteOk d c then .ok { c with remoteDescription := some d }
  else .error ()

/-- Native `setLocalDescription`: on success the description is committed,
on failure the connection is unchanged and the rejection propagates. -/
def hostSetLocalDescription (env : HostEnv) (d : SessionDesc)
    (c : RTCPeerConnection) : Except Unit RTCPeerConnection :=
  if env.setLocalOk d c then .ok { c with localDescription := some d }
  else .error ()

/-- `createAnswer` of the connector.  Source:
`await setRemoteDescription(offer); const answer = await createAnswer();
await setLocalDescription(answer); return answer;` — each `await` of a
rejected promise aborts the method and propagates the failure.  We return
the outcome, the connection state, and the trace of native calls. -/
def createAnswer (env : HostEnv) (c : RTCPeerConnection)
    (offer : SessionDesc) :
    Except Unit SessionDesc × RTCPeerConnection × List HostCall :=
  match hostSetRemoteDescription env offer c with
  | .error _ => (.error (), c, [HostCall.setRemote offer])
  | .ok c1 =>
    match env.answerFor c1 with
    | none => (.error (), c1, [HostCall.setRemote offer, HostCall.mkAnswer])
    | some answer =>
      match hostSetLocalDescription env answer c1 with
      | .error _ =>
        (.error (), c1,
          [HostCall.setRemote offer, HostCall.mkAnswer,
            HostCall.setLocal answer])
      | .ok c2 =>
        (.ok answer, c2,
          [HostCall.setRemote offer, HostCall.mkAnswer,
            HostCall.setLocal answer])

/-- `handleAnswer` of the connector.  Source: commit the answer as the
remote description; then, only if `connection.onnegotiationneeded` is not
already set, register `negotiationHandler` there.  A rejected commit
propagates and skips the registration. -/
def handleAnswer (env : HostEnv) (c : RTCPeerConnection)
    (answer : SessionDesc) (negotiationHandler : Nat) :
    Except Unit RTCPeerConnection :=
  match hostSetRemoteDescription env answer c with
  | .error _ => .error ()
  | .ok c1 =>
    if c1.onnegotiationneeded = none then
      .ok { c1 with onnegotiationneeded := some negotiationHandler }
    else
      .ok c1

/-- The `webRTCOptions` construction of `createOffer`: `iceRestart` is set
to true exactly when `options?.handshakeRestart` is truthy, otherwise it
stays at its absent (false) default. -/
def offerIceRestart (options : Option OfferOptions) : Bool :=
  match options with
  | some o => o.handshakeRestart.getD false
  | none => false

/-- `createOffer` of the connector.  Source: build `webRTCOptions`, setting
`iceRestart := true` exactly when `options?.handshakeRestart` is truthy;
`await createOffer(webRTCOptions)`; `await setLocalDescription(offer)`;
return the offer. -/
def createOffer (env : HostEnv) (c : RTCPeerConnection)
    (options : Option OfferOptions) :
    Except Unit SessionDesc × RTCPeerConnection × List HostCall :=
  let iceRestart : Bool := offerIceRestart options
  match env.offerFor iceRestart c with
  | none => (.error (), c, [HostCall.mkOffer iceRestart])
  | some offer =>
    match hostSetLocalDescription env offer c with
    | .error _ =>
      (.error (), c, [HostCall.mkOffer iceRestart, HostCall.setLocal offer])
    | .ok c1 =>
      (.ok offer, c1,
        [HostCall.mkOffer iceRestart, HostCall.setLocal offer])

/-- `replaceTrack` of the connector.  Source: `await sender.replaceTrack(track)`;
then for every transceiver of the connection whose sender is that sender,
set its direction to the string `sendrecv`.  A rejected swap propagates
before any direction is touched. -/
def replaceTrack (env : HostEnv) (c : RTCPeerConnection)
    (track : Nat) (senderId : Nat) : Except Unit RTCPeerConnection :=
  if env.replaceTrackOk senderId track c then
    .ok { c with
      transceivers := c.transceivers.map fun tr =>
        if tr.senderId = senderId then { tr with direction := "sendrecv" }
        else tr }
  else
    .error ()

/-- The enum `MediaStreamPriority` of the SDK is a numeric enumeration;
`Low`, `Medium` and `High` are its members. -/
abbrev MediaStreamPriority := Nat

def MediaStreamPriority.Low : MediaStreamPriority := 0

def MediaStreamPriority.Medium : MediaStreamPriority := 1

def MediaStreamPriority.High : MediaStreamPriority := 2

/-- `convertPriority`: the switch maps `Low` to the string `low`, `High`
to `high`, everything else to `medium`. -/
def convertPriority (priority : MediaStreamPriority) : String :=
  if priority = MediaStreamPriority.Low then "low"
  else if priority = MediaStreamPriority.High then "high"
  else "medium"

/-- The update `setEncodingParameters` performs on the parameter set: the
four values are written into every encoding layer. -/
def updateEncodings (ps : RTCRtpParameters) (scaleResolutionDownBy : Int)
    (maxFramerate : Int) (maxBitrate : Int)
    (priority : MediaStreamPriority) : RTCRtpParameters :=
  { ps with
    encodings := ps.encodings.map fun encoding =>
      { encoding with
        scaleResolutionDownBy := scaleResolutionDownBy
        maxFramerate := maxFramerate
        maxBitrate := maxBitrate
        priority := convertPriority priority } }

/-- `setEncodingParameters` of the connector.  Source: read
`sender.getParameters()`; if absent, return; otherwise write the four
values into every encoding and call `sender.setParameters(parameters)`
with `.catch` swallowing any failure, so the method itself never fails.
We return the (unchanged) connection and the trace of effectful calls. -/
def setEncodingParameters (env : HostEnv) (c : RTCPeerConnection)
    (senderId : Nat) (scaleResolutionDownBy : Int) (maxFramerate : Int)
    (maxBitrate : Int) (priority : MediaStreamPriority) :
    RTCPeerConnection × List HostCall :=
  match env.getParameters senderId c with
  | none => (c, [])
  | some parameters =>
    let updated :=
      updateEncodings parameters scaleResolutionDownBy maxFramerate
        maxBitrate priority
    let commit : Except Unit Unit :=
      if env.setParamsOk senderId updated then .ok () else .error ()
    match commit with
    | .ok _ => (c, [HostCall.setSenderParameters senderId updated])
    | .error _ => (c, [HostCall.setSenderParameters senderId updated])

/-- `convertStatsReport`: pushes every value the report's `forEach` visits
onto a fresh array, in visiting order. -/
def convertStatsReport (report : RTCStatsReport) : List StatsValue :=
  report.foldl (fun stats value => stats.concat value) []

/-- `collectReceiversStats` of the connector.  Source: for each
`
[streamId, tracks]` of the map in iteration order, gather
`convertStatsReport(await getStats(track))` for every track whose
`getStats` produced a report; if no report was gathered, `continue`;
otherwise invoke the collector with the batch and the stream id.  We
return the list of collector invocations in order. -/
def collectReceiversStats (env : HostEnv)
    (receivers : List (String × List Nat)) :
    List (List (List StatsValue) × String) :=
  match receivers with
  | [] => []
  | (streamId, tracks) :: rest =>
    let stats := tracks.foldl
      (fun acc track =>
        match env.getStats track with
        | some trackStats => acc.concat (convertStatsReport trackStats)
        | none => acc) []
    if stats = [] then collectReceiversStats env rest
    else (stats, streamId) :: collectReceiversStats env rest

/-- A track/sender pair of the sender map; either member may be absent. -/
structure SenderTrackPair where
  track : Option Nat
  sender : Option Nat
  deriving DecidableEq, Repr

/-- The per-stream sender map: optional video and audio pairs. -/
structure SenderMapTracks where
  video : Option SenderTrackPair
  audio : Option SenderTrackPair
  deriving DecidableEq, Repr

/-- `IPeerConnectionSenderMap`: the `tracks` record. -/
structure SenderMap where
  tracks : SenderMapTracks
  deriving DecidableEq, Repr

/-- The truthiness test `pair?.track && pair?.sender` of the source. -/
def pairQualifies : Option SenderTrackPair → Bool
  | some pair => pair.track.isSome && pair.sender.isSome
  | none => false

/-- The report a qualifying pair contributes: `convertStatsReport` of its
track's stats, when `getStats` produced a report. -/
def pairReport (env : HostEnv) (pair : Option SenderTrackPair) :
    Option (List StatsValue) :=
  match pair with
  | some p =>
    match p.track with
    | some t =>
      match env.getStats t with
      | some trackStats => some (convertStatsReport trackStats)
      | none => none
    | none => none
  | none => none

/-- `collectSendersStats` of the connector.  Source: for each
`
[streamId, stream]` in iteration order, push the video report (when the
video track and sender are both present and stats were produced), then
the audio report likewise; skip the stream if nothing was pushed,
otherwise invoke the collector with the batch and the stream id. -/
def collectSendersStats (env : HostEnv)
    (senders : List (String × SenderMap)) :
    List (List (List StatsValue) × String) :=
  match senders with
  | [] => []
  | (streamId, stream) :: rest =>
    let statsV : List (List StatsValue) :=
      if pairQualifies stream.tracks.video then
        match pairReport env stream.tracks.video with
        | some report => [report]
        | none => []
      else []
    let stats : List (List StatsValue) :=
      if pairQualifies stream.tracks.audio then
        match pairReport env stream.tracks.audio with
        | some report => statsV.concat report
        | none => statsV
      else statsV
    if stats = [] then collectSendersStats env rest
    else (stats, streamId) :: collectSendersStats env rest

/-- The constructor: builds the native connection from
`
{ iceServers: config.handshakeServers }`.  A fresh native connection has
no remote or local description, no transceivers and every callback slot
null. -/
def mkConnector (config : PeerConnectionConfig) : RTCPeerConnection :=
  { iceServers := config.handshakeServers
    remoteDescription := none
    localDescription := none
    transceivers := []
    onicecandidate := none
    onconnectionstatechange := none
    ondatachannel := none
    onicegatheringstatechange := none
    oniceconnectionstatechange := none
    ontrack := none
    onnegotiationneeded := none }

/-- `canAddCandidates`: `connection.remoteDescription !== null`. -/
def canAddCandidates (c : RTCPeerConnection) : Bool :=
  c.remoteDescription.isSome

/-- The adapter operations that touch the remote description, for the
`canAddCandidates` lifecycle claim. -/
inductive AdapterOp where
  | createAnswerOp (offer : SessionDesc)
  | handleAnswerOp (answer : SessionDesc) (negotiationHandler : Nat)
  deriving DecidableEq, Repr

/-- The connection state after one adapter operation (a rejected native
call leaves the connection as the failing primitive left it). -/
def applyOp (env : HostEnv) (c : RTCPeerConnection) :
    AdapterOp → RTCPeerConnection
  | .createAnswerOp offer => (createAnswer env c offer).2.1
  | .handleAnswerOp answer h =>
    match handleAnswer env c answer h with
    | .ok c1 => c1
    | .error _ => c

/-- Whether the remote-description commit inside one operation succeeds. -/
def opCommitOk (env : HostEnv) (c : RTCPeerConnection) : AdapterOp → Bool
  | .createAnswerOp offer => env.setRemoteOk offer c
  | .handleAnswerOp answer _ => env.setRemoteOk answer c

/-- The connection state after a sequence of adapter operations. -/
def runOps (env : HostEnv) (c : RTCPeerConnection) :
    List AdapterOp → RTCPeerConnection
  | [] => c
  | op :: rest => runOps env (applyOp env c op) rest

/-- Whether some remote-description commit in the sequence succeeded. -/
def anyCommitOk (env : HostEnv) (c : RTCPeerConnection) :
    List AdapterOp → Bool
  | [] => false
  | op :: rest =>
    opCommitOk env c op || anyCommitOk env (applyOp env c op) rest

/-- Setter `onCandidate`: `connection.onicecandidate = callback`. -/
def setOnCandidate (c : RTCPeerConnection) (callback : Option Nat) :
    RTCPeerConnection :=
  { c with onicecandidate := callback }

/-- Setter `onConnectionStateChange`. -/
def setOnConnectionStateChange (c : RTCPeerConnection)
    (callback : Option Nat) : RTCPeerConnection :=
  { c with onconnectionstatechange := callback }

/-- Setter `onDataChannel`: a null callback is stored as null; a non-null
callback is stored behind the wrapping closure that hands the caller the
wrapped channel. -/
def setOnDataChannel (c : RTCPeerConnection) (callback : Option Nat) :
    RTCPeerConnection :=
  match callback with
  | none => { c with ondatachannel := none }
  | some cb => { c with ondatachannel := some (DataChannelSlot.wrapping cb) }

/-- Setter `onGatheringStateChange`. -/
def setOnGatheringStateChange (c : RTCPeerConnection)
    (callback : Option Nat) : RTCPeerConnection :=
  { c with onicegatheringstatechange := callback }

/-- Setter `onHandshakeStateChange`. -/
def setOnHandshakeStateChange (c : RTCPeerConnection)
    (callback : Option Nat) : RTCPeerConnection :=
  { c with oniceconnectionstatechange := callback }

/-- Setter `onTrack`. -/
def setOnTrack (c : RTCPeerConnection) (callback : Option Nat) :
    RTCPeerConnection :=
  { c with ontrack := callback }

/-- The data-channel connector returned by `createDataChannel`: a closure
over the native channel.  We record the wrapped channel. -/
structure DataChannelConnector where
  channel : RTCDataChannel
  deriving DecidableEq, Repr

/-- The wrapping step `createDataChannel(event.channel)` applied by the
`ondatachannel` closure. -/
def wrapDataChannel (dataChannel : RTCDataChannel) : DataChannelConnector :=
  { channel := dataChannel }

/-- Firing a native candidate event: the callback invoked, if any. -/
def fireCandidate (c : RTCPeerConnection) : Option Nat :=
  c.onicecandidate

/-- Firing a native connection-state-change event. -/
def fireConnectionStateChange (c : RTCPeerConnection) : Option Nat :=
  c.onconnectionstatechange

/-- Firing a native datachannel event carrying a raw channel: the
registered callback is invoked with the wrapped channel; a null slot
drops the event. -/
def fireDataChannel (c : RTCPeerConnection)
    (rawChannel : RTCDataChannel) : Option (Nat × DataChannelConnector) :=
  match c.ondatachannel with
  | some (DataChannelSlot.wrapping cb) => some (cb, wrapDataChannel rawChannel)
  | none => none

/-- Firing a native gathering-state-change event. -/
def fireGatheringStateChange (c : RTCPeerConnection) : Option Nat :=
  c.onicegatheringstatechange

/-- Firing a native handshake-state-change event. -/
def fireHandshakeStateChange (c : RTCPeerConnection) : Option Nat :=
  c.oniceconnectionstatechange

/-- Firing a native track event. -/
def fireTrack (c : RTCPeerConnection) : Option Nat :=
  c.ontrack

/-- Data-channel setter `onBufferedAmountLow`. -/
def setOnBufferedAmountLow (dc : RTCDataChannel) (callback : Option Nat) :
    RTCDataChannel :=
  { dc with onbufferedamountlow := callback }

/-- Data-channel setter `onClose`. -/
def setOnClose (dc : RTCDataChannel) (callback : Option Nat) :
    RTCDataChannel :=
  { dc with onclose := callback }

/-- Data-channel setter `onMessage`. -/
def setOnMessage (dc : RTCDataChannel) (callback : Option Nat) :
    RTCDataChannel :=
  { dc with onmessage := callback }

/-- Firing a native buffered-amount-low event. -/
def fireBufferedAmountLow (dc : RTCDataChannel) : Option Nat :=
  dc.onbufferedamountlow

/-- Firing a native close event on a data channel. -/
def fireClose (dc : RTCDataChannel) : Option Nat :=
  dc.onclose

/-- Firing a native message event on a data channel. -/
def fireMessage (dc : RTCDataChannel) : Option Nat :=
  dc.onmessage

/-! Concrete fixtures used by the witnesses. -/

def desc0 : SessionDesc := { sdpType := "offer", sdp := "sdpO" }

def descAns : SessionDesc := { sdpType := "answer", sdp := "sdpA" }

def offerR : SessionDesc := { sdpType := "offer", sdp := "sdpR" }

def conn0 : RTCPeerConnection := mkConnector { handshakeServers := ["stun"] }

def encoding0 : RTCRtpEncoding :=
  { scaleResolutionDownBy := 4, maxFramerate := 60, maxBitrate := 9000,
    priority := "very-low", rid := 7 }

def envOk : HostEnv :=
  { setRemoteOk := fun _ _ => true
    answerFor := fun _ => some descAns
    setLocalOk := fun _ _ => true
    offerFor := fun _ _ => some offerR
    getStats := fun t =>
      if t = 1 then some [10, 11] else if t = 2 then some [12] else none
    replaceTrackOk := fun _ _ _ => true
    getParameters := fun s _ =>
      if s = 0 then some { encodings := [encoding0] } else none
    setParamsOk := fun _ _ => false }

def envFail : HostEnv := { envOk with setRemoteOk := fun _ _ => false }

/-- C1: for every offer passed to `createAnswer`, the operation performs
three steps in strict order — commit the offer as the remote description,
generate an answer, commit the answer as the local description — and
returns the answer; if the remote-description commit fails, no answer is
generated, no local description is set, and the failure propagates to the
caller. -/
theorem createAnswer_spec (env : HostEnv) (c : RTCPeerConnection)
    (offer : SessionDesc) :
    (env.setRemoteOk offer c = false →
      (createAnswer env c offer).1 = .error () ∧
      (createAnswer env c offer).2.1 = c ∧
      (createAnswer env c offer).2.2 = [HostCall.setRemote offer]) ∧
    (∀ answer, (createAnswer env c offer).1 = .ok answer →
      (createAnswer env c offer).2.2 =
        [HostCall.setRemote offer, HostCall.mkAnswer,
          HostCall.setLocal answer] ∧
      (createAnswer env c offer).2.1.remoteDescription = some offer ∧
      (createAnswer env c offer).2.1.localDescription = some answer) := by
  constructor
  · intro hfail
    simp [createAnswer, hostSetRemoteDescription, hfail]
  · intro answer hok
    by_cases h1 : env.setRemoteOk offer c
    · cases h2 : env.answerFor { c with remoteDescription := some offer } with
      | none =>
        simp [createAnswer, hostSetRemoteDescription, h1, h2] at hok
      | some a =>
        by_cases h3 :
            env.setLocalOk a { c with remoteDescription := some offer }
        · have ha : a = answer := by
            simpa [createAnswer, hostSetRemoteDescription,
              hostSetLocalDescription, h1, h2, h3] using hok
          subst ha
          simp [createAnswer, hostSetRemoteDescription,
            hostSetLocalDescription, h1, h2, h3]
        · simp [createAnswer, hostSetRemoteDescription,
            hostSetLocalDescription, h1, h2, h3] at hok
    · simp [createAnswer, hostSetRemoteDescription, h1] at hok

theorem createAnswer_spec_witness :
    (createAnswer envFail conn0 desc0).2.2 = [HostCall.setRemote desc0] ∧
    (createAnswer envOk conn0 desc0).2.2 =
      [HostCall.setRemote desc0, HostCall.mkAnswer,
        HostCall.setLocal descAns] :=
  ⟨((createAnswer_spec envFail conn0 desc0).1 rfl).2.2,
    ((createAnswer_spec envOk conn0 desc0).2 descAns rfl).1⟩

/-- C8: the priority conversion maps `Low` to the string `low`, `High` to
`high`, and any other value to `medium`. -/
theorem convertPriority_spec :
    convertPriority MediaStreamPriority.Low = "low" ∧
    convertPriority MediaStreamPriority.High = "high" ∧
    ∀ p, p ≠ MediaStreamPriority.Low → p ≠ MediaStreamPriority.High →
      convertPriority p = "medium" := by
  refine ⟨rfl, rfl, fun p hl hh => ?_⟩
  simp [convertPriority, hl, hh]

theorem convertPriority_spec_witness :
    convertPriority MediaStreamPriority.Medium = "medium" :=
  convertPriority_spec.2.2 MediaStreamPriority.Medium (by decide) (by decide)

/-- C9: for every callback slot of either adapter, setting a new callback
replaces the previous one and setting null deregisters it, so that after
a slot is set to null the previously registered callback is never invoked
for subsequent events; the `onDataChannel` slot stores the wrapping step
only for non-null callbacks and its events carry the wrapped channel. -/
theorem callbackSlots_spec (c : RTCPeerConnection) (dc dch : RTCDataChannel)
    (k k2 : Nat) :
    (fireCandidate (setOnCandidate (setOnCandidate c (some k)) none) = none ∧
      fireCandidate (setOnCandidate (setOnCandidate c (some k)) (some k2)) =
        some k2 ∧
      fireCandidate (setOnCandidate c (some k)) = some k) ∧
    (fireConnectionStateChange
        (setOnConnectionStateChange (setOnConnectionStateChange c (some k))
          none) = none ∧
      fireConnectionStateChange
        (setOnConnectionStateChange (setOnConnectionStateChange c (some k))
          (some k2)) = some k2 ∧
      fireConnectionStateChange (setOnConnectionStateChange c (some k)) =
        some k) ∧
    (fireGatheringStateChange
        (setOnGatheringStateChange (setOnGatheringStateChange c (some k))
          none) = none ∧
      fireGatheringStateChange
        (setOnGatheringStateChange (setOnGatheringStateChange c (some k))
          (some k2)) = some k2 ∧
      fireGatheringStateChange (setOnGatheringStateChange c (some k)) =
        some k) ∧
    (fireHandshakeStateChange
        (setOnHandshakeStateChange (setOnHandshakeStateChange c (some k))
          none) = none ∧
      fireHandshakeStateChange
        (setOnHandshakeStateChange (setOnHandshakeStateChange c (some k))
          (some k2)) = some k2 ∧
      fireHandshakeStateChange (setOnHandshakeStateChange c (some k)) =
        some k) ∧
    (fireTrack (setOnTrack (setOnTrack c (some k)) none) = none ∧
      fireTrack (setOnTrack (setOnTrack c (some k)) (some k2)) = some k2 ∧
      fireTrack (setOnTrack c (some k)) = some k) ∧
    (fireDataChannel (setOnDataChannel (setOnDataChannel c (some k)) none)
        dch = none ∧
      fireDataChannel (setOnDataChannel (setOnDataChannel c (some k))
        (some k2)) dch = some (k2, wrapDataChannel dch) ∧
      (setOnDataChannel c (some k)).ondatachannel =
        some (DataChannelSlot.wrapping k) ∧
      (setOnDataChannel c none).ondatachannel = none) ∧
    (fireBufferedAmountLow
        (setOnBufferedAmountLow (setOnBufferedAmountLow dc (some k)) none) =
        none ∧
      fireBufferedAmountLow
        (setOnBufferedAmountLow (setOnBufferedAmountLow dc (some k))
          (some k2)) = some k2 ∧
      fireBufferedAmountLow (setOnBufferedAmountLow dc (some k)) = some k) ∧
    (fireClose (setOnClose (setOnClose dc (some k)) none) = none ∧
      fireClose (setOnClose (setOnClose dc (some k)) (some k2)) = some k2 ∧
      fireClose (setOnClose dc (some k)) = some k) ∧
    (fireMessage (setOnMessage (setOnMessage dc (some k)) none) = none ∧
      fireMessage (setOnMessage (setOnMessage dc (some k)) (some k2)) =
        some k2 ∧
      fireMessage (setOnMessage dc (some k)) = some k) :=
  ⟨⟨rfl, rfl, rfl⟩, ⟨rfl, rfl, rfl⟩, ⟨rfl, rfl, rfl⟩, ⟨rfl, rfl, rfl⟩,
    ⟨rfl, rfl, rfl⟩, ⟨rfl, rfl, rfl, rfl⟩, ⟨rfl, rfl, rfl⟩, ⟨rfl, rfl, rfl⟩,
    ⟨rfl, rfl, rfl⟩⟩

/-- One adapter operation turns `canAddCandidates` on exactly when its
remote-description commit succeeds, and never turns it off. -/
theorem canAddCandidates_applyOp (env : HostEnv) (c : RTCPeerConnection)
    (op : AdapterOp) :
    canAddCandidates (applyOp env c op) =
      (opCommitOk env c op || canAddCandidates c) := by
  cases op with
  | createAnswerOp offer =>
    by_cases h1 : env.setRemoteOk offer c
    · cases h2 : env.answerFor { c with remoteDescription := some offer } with
      | none =>
        simp [applyOp, opCommitOk, createAnswer, hostSetRemoteDescription,
          canAddCandidates, h1, h2]
      | some a =>
        by_cases h3 :
            env.setLocalOk a { c with remoteDescription := some offer }
        · simp [applyOp, opCommitOk, createAnswer, hostSetRemoteDescription,
            hostSetLocalDescription, canAddCandidates, h1, h2, h3]
        · simp [applyOp, opCommitOk, createAnswer, hostSetRemoteDescription,
            hostSetLocalDescription, canAddCandidates, h1, h2, h3]
    · simp [applyOp, opCommitOk, createAnswer, hostSetRemoteDescription,
        canAddCandidates, h1]
  | handleAnswerOp answer h =>
    by_cases h1 : env.setRemoteOk answer c
    · by_cases h2 : c.onnegotiationneeded = none
      · simp [applyOp, opCommitOk, handleAnswer, hostSetRemoteDescription,
          canAddCandidates, h1, h2]
      · simp [applyOp, opCommitOk, handleAnswer, hostSetRemoteDescription,
          canAddCandidates, h1, h2]
    · simp [applyOp, opCommitOk, handleAnswer, hostSetRemoteDescription,
        canAddCandidates, h1]

/-- Running a sequence of operations leaves `canAddCandidates` true exactly
when some commit succeeded or it already was true. -/
theorem canAddCandidates_runOps (env : HostEnv) (ops : List AdapterOp)
    (c : RTCPeerConnection) :
    canAddCandidates (runOps env c ops) =
      (anyCommitOk env c ops || canAddCandidates c) := by
  induction ops generalizing c with
  | nil => simp [runOps, anyCommitOk]
  | cons op rest ih =>
    simp only [runOps, anyCommitOk]
    rw [ih, canAddCandidates_applyOp]
    cases opCommitOk env c op <;>
      cases anyCommitOk env (applyOp env c op) rest <;>
        cases canAddCandidates c <;> rfl

/-- C2: `canAddCandidates` is false immediately after construction and,
over any sequence of `createAnswer` / `handleAnswer` operations, becomes
true exactly when a remote session description has been successfully
committed; it remains false while every remote-description commit has
failed. -/
theorem canAddCandidates_lifecycle (config : PeerConnectionConfig)
    (env : HostEnv) (ops : List AdapterOp) :
    canAddCandidates (mkConnector config) = false ∧
    canAddCandidates (runOps env (mkConnector config) ops) =
      anyCommitOk env (mkConnector config) ops := by
  refine ⟨rfl, ?_⟩
  rw [canAddCandidates_runOps]
  simp [canAddCandidates, mkConnector]

/-- C4: `handleAnswer` commits the answer as the remote description and
registers the negotiation handler only if none is registered yet; after
two successful calls with different handlers, the first handler stays
registered. -/
theorem handleAnswer_spec (env : HostEnv) (c : RTCPeerConnection)
    (answer : SessionDesc) (negotiationHandler : Nat) :
    (∀ c', handleAnswer env c answer negotiationHandler = .ok c' →
      c'.remoteDescription = some answer ∧
      (c.onnegotiationneeded = none →
        c'.onnegotiationneeded = some negotiationHandler) ∧
      (∀ k, c.onnegotiationneeded = some k →
        c'.onnegotiationneeded = some k)) ∧
    (∀ a2 h2 c1 c2, c.onnegotiationneeded = none →
      handleAnswer env c answer negotiationHandler = .ok c1 →
      handleAnswer env c1 a2 h2 = .ok c2 →
      c2.onnegotiationneeded = some negotiationHandler) := by
  have key : ∀ (x : RTCPeerConnection) (a : SessionDesc) (g : Nat)
      (x' : RTCPeerConnection), handleAnswer env x a g = .ok x' →
      x'.remoteDescription = some a ∧
      x'.onnegotiationneeded = some (x.onnegotiationneeded.getD g) := by
    intro x a g x' hok
    by_cases h1 : env.setRemoteOk a x
    · by_cases h2 : x.onnegotiationneeded = none
      · have hx' :
            ({ x with
                remoteDescription := some a
                onnegotiationneeded := some g } : RTCPeerConnection) = x' := by
          simpa [handleAnswer, hostSetRemoteDescription, h1, h2] using hok
        rw [← hx']
        simp [h2]
      · have hx' :
            ({ x with remoteDescription := some a } : RTCPeerConnection) =
              x' := by
          simpa [handleAnswer, hostSetRemoteDescription, h1, h2] using hok
        obtain ⟨k, hk⟩ := Option.ne_none_iff_exists'.mp h2
        rw [← hx']
        simp [hk]
    · simp [handleAnswer, hostSetRemoteDescription, h1] at hok
  constructor
  · intro c' hok
    obtain ⟨hr, hn⟩ := key c answer negotiationHandler c' hok
    refine ⟨hr, fun hnone => ?_, fun k hk => ?_⟩
    · rw [hn, hnone]
      rfl
    · rw [hn, hk]
      rfl
  · intro a2 h2 c1 c2 hnone hok1 hok2
    obtain ⟨_, hn1⟩ := key c answer negotiationHandler c1 hok1
    obtain ⟨_, hn2⟩ := key c1 a2 h2 c2 hok2
    rw [hn2, hn1, hnone]
    rfl

def connFirst : RTCPeerConnection :=
  { conn0 with
    remoteDescription := some desc0
    onnegotiationneeded := some 3 }

def connSecond : RTCPeerConnection :=
  { conn0 with
    remoteDescription := some descAns
    onnegotiationneeded := some 3 }

theorem handleAnswer_spec_witness :
    ((handleAnswer envOk conn0 desc0 3).map
        RTCPeerConnection.onnegotiationneeded = .ok (some 3)) ∧
    connSecond.onnegotiationneeded = some 3 := by
  refine ⟨rfl, ?_⟩
  exact (handleAnswer_spec envOk conn0 desc0 3).2 descAns 4 connFirst
    connSecond rfl rfl rfl

/-- C5: after a successful host-level track swap, `replaceTrack` sets
every transceiver owning that sender to the bidirectional direction, for
any previous direction, and leaves other transceivers untouched. -/
theorem replaceTrack_spec (env : HostEnv) (c : RTCPeerConnection)
    (track senderId : Nat) (c' : RTCPeerConnection) :
    replaceTrack env c track senderId = .ok c' →
    (∀ tr ∈ c'.transceivers, tr.senderId = senderId →
      tr.direction = "sendrecv") ∧
    (∀ tr ∈ c.transceivers, tr.senderId ≠ senderId →
      tr ∈ c'.transceivers) ∧
    c'.transceivers.length = c.transceivers.length := by
  intro hok
  by_cases h1 : env.replaceTrackOk senderId track c
  · have hc' :
        ({ c with transceivers := c.transceivers.map fun tr =>
            if tr.senderId = senderId then { tr with direction := "sendrecv" }
            else tr } : RTCPeerConnection) = c' := by
      simpa [replaceTrack, h1] using hok
    rw [← hc']
    refine ⟨?_, ?_, by simp⟩
    · intro tr htr hsid
      simp only [List.mem_map] at htr
      obtain ⟨pre, _, hpre⟩ := htr
      by_cases hp : pre.senderId = senderId
      · rw [← hpre]
        simp [hp]
      · rw [← hpre] at hsid
        simp [hp] at hsid
    · intro tr htr hsid
      simp only [List.mem_map]
      exact ⟨tr, htr, by simp [hsid]⟩
  · simp [replaceTrack, h1] at hok

def connT : RTCPeerConnection :=
  { conn0 with transceivers := [⟨5, "sendonly"⟩, ⟨6, "recvonly"⟩] }

def connTAfter : RTCPeerConnection :=
  { conn0 with transceivers := [⟨5, "sendrecv"⟩, ⟨6, "recvonly"⟩] }

theorem replaceTrack_spec_witness :
    Transceiver.direction ⟨5, "sendrecv"⟩ = "sendrecv" ∧
    (⟨6, "recvonly"⟩ : Transceiver) ∈ connTAfter.transceivers := by
  have h := replaceTrack_spec envOk connT 9 5 connTAfter rfl
  exact ⟨h.1 ⟨5, "sendrecv"⟩ (by decide) rfl, h.2.1 ⟨6, "recvonly"⟩
    (by decide) (by decide)⟩

/-- C6: `setEncodingParameters` on a sender with no current parameter set
issues no effectful host call and raises no error; otherwise it writes
`scaleResolutionDownBy`, `maxFramerate`, `maxBitrate` and the converted
priority into every encoding layer and commits them, and a failure of the
commit is never surfaced to the caller. -/
theorem setEncodingParameters_spec (env : HostEnv) (c : RTCPeerConnection)
    (senderId : Nat) (srdb mfr mbr : Int) (p : MediaStreamPriority) :
    (env.getParameters senderId c = none →
      setEncodingParameters env c senderId srdb mfr mbr p = (c, [])) ∧
    (∀ ps, env.getParameters senderId c = some ps →
      setEncodingParameters env c senderId srdb mfr mbr p =
        (c, [HostCall.setSenderParameters senderId
          (updateEncodings ps srdb mfr mbr p)]) ∧
      ∀ e ∈ (updateEncodings ps srdb mfr mbr p).encodings,
        e.scaleResolutionDownBy = srdb ∧ e.maxFramerate = mfr ∧
        e.maxBitrate = mbr ∧ e.priority = convertPriority p) ∧
    (∀ f g,
      setEncodingParameters { env with setParamsOk := f } c senderId srdb
        mfr mbr p =
      setEncodingParameters { env with setParamsOk := g } c senderId srdb
        mfr mbr p) := by
  refine ⟨fun hnone => ?_, fun ps hps => ⟨?_, ?_⟩, fun f g => ?_⟩
  · simp [setEncodingParameters, hnone]
  · by_cases hb : env.setParamsOk senderId (updateEncodings ps srdb mfr mbr p)
    · simp [setEncodingParameters, hps, hb]
    · simp [setEncodingParameters, hps, hb]
  · intro e he
    simp only [updateEncodings, List.mem_map] at he
    obtain ⟨pre, _, hpre⟩ := he
    rw [← hpre]
    exact ⟨rfl, rfl, rfl, rfl⟩
  · simp only [setEncodingParameters]
    cases h : env.getParameters senderId c with
    | none => rfl
    | some ps =>
      by_cases hf : f senderId (updateEncodings ps srdb mfr mbr p) <;>
        by_cases hg : g senderId (updateEncodings ps srdb mfr mbr p) <;>
          simp [hf, hg]

def encodingUpdated : RTCRtpEncoding :=
  { scaleResolutionDownBy := 2
    maxFramerate := 30
    maxBitrate := 500000
    priority := "high"
    rid := 7 }

theorem setEncodingParameters_spec_witness :
    setEncodingParameters envOk conn0 1 2 30 500000
      MediaStreamPriority.High = (conn0, []) ∧
    setEncodingParameters envOk conn0 0 2 30 500000
      MediaStreamPriority.High =
      (conn0, [HostCall.setSenderParameters 0
        { encodings := [encodingUpdated] }]) := by
  constructor
  · exact (setEncodingParameters_spec envOk conn0 1 2 30 500000
      MediaStreamPriority.High).1 rfl
  · have h := ((setEncodingParameters_spec envOk conn0 0 2 30 500000
      MediaStreamPriority.High).2.1 { encodings := [encoding0] } rfl).1
    rw [h]
    rfl

/-- The ICE-restart flag of `createOffer` is true exactly when the caller
passed options with a truthy `handshakeRestart`. -/
theorem offerIceRestart_iff (options : Option OfferOptions) :
    offerIceRestart options = true ↔
      ∃ o, options = some o ∧ o.handshakeRestart = some true := by
  cases options with
  | none => simp [offerIceRestart]
  | some o =>
    cases hb : o.handshakeRestart with
    | none => simp [offerIceRestart, hb]
    | some b => cases b <;> simp [offerIceRestart, hb]

/-- C7: `createOffer` requests an ICE restart exactly when
`options.handshakeRestart` is set, and the generated offer is committed as
the local description before the offer is returned — offer generation
strictly precedes the local-description commit in its trace. -/
theorem createOffer_spec (env : HostEnv) (c : RTCPeerConnection)
    (options : Option OfferOptions) :
    ∃ flag,
      (flag = true ↔ ∃ o, options = some o ∧ o.handshakeRestart = some true) ∧
      (createOffer env c options).2.2.head? =
        some (HostCall.mkOffer flag) ∧
      ∀ offer, (createOffer env c options).1 = .ok offer →
        (createOffer env c options).2.2 =
          [HostCall.mkOffer flag, HostCall.setLocal offer] ∧
        (createOffer env c options).2.1.localDescription = some offer := by
  refine ⟨offerIceRestart options, offerIceRestart_iff options, ?_, ?_⟩
  · cases h1 : env.offerFor (offerIceRestart options) c with
    | none => simp [createOffer, h1]
    | some offer =>
      by_cases h2 : env.setLocalOk offer c
      · simp [createOffer, hostSetLocalDescription, h1, h2]
      · simp [createOffer, hostSetLocalDescription, h1, h2]
  · intro offer hok
    cases h1 : env.offerFor (offerIceRestart options) c with
    | none => simp [createOffer, h1] at hok
    | some off =>
      by_cases h2 : env.setLocalOk off c
      · have ho : off = offer := by
          simpa [createOffer, hostSetLocalDescription, h1, h2] using hok
        subst ho
        simp [createOffer, hostSetLocalDescription, h1, h2]
      · simp [createOffer, hostSetLocalDescription, h1, h2] at hok

def opts1 : Option OfferOptions := some { handshakeRestart := some true }

theorem createOffer_spec_witness :
    (createOffer envOk conn0 opts1).2.1.localDescription = some offerR := by
  obtain ⟨flag, _, _, hsucc⟩ := createOffer_spec envOk conn0 opts1
  exact (hsucc offerR rfl).2

/-- The per-stream gathering loop of `collectReceiversStats` pushes, onto
the accumulator, the flattened report of every track whose stats fetch
produced a report, in track order. -/
theorem receiversFoldl_eq (env : HostEnv) (tracks : List Nat)
    (acc : List (List StatsValue)) :
    tracks.foldl (fun acc track =>
      match env.getStats track with
      | some trackStats => acc.concat (convertStatsReport trackStats)
      | none => acc) acc =
    acc ++ tracks.filterMap fun t =>
      (env.getStats t).map convertStatsReport := by
  induction tracks generalizing acc with
  | nil => simp
  | cons t rest ih =>
    rw [List.foldl_cons, List.filterMap_cons]
    cases h : env.getStats t with
    | none =>
      simp only [h, Option.map_none']
      exact ih acc
    | some ts =>
      simp only [h, Option.map_some']
      rw [ih (acc.concat (convertStatsReport ts))]
      simp [List.concat_eq_append]

/-- `collectReceiversStats` equals: keep, in input order, exactly the
streams for which some track produced a report, and hand each its batch
of flattened per-track reports. -/
theorem collectReceiversStats_eq (env : HostEnv)
    (receivers : List (String × List Nat)) :
    collectReceiversStats env receivers =
      (receivers.filter fun p =>
        p.2.any fun t => (env.getStats t).isSome).map
        fun p =>
          (p.2.filterMap fun t => (env.getStats t).map convertStatsReport,
            p.1) := by
  induction receivers with
  | nil => rfl
  | cons hd rest ih =>
    obtain ⟨streamId, tracks⟩ := hd
    simp only [collectReceiversStats]
    rw [receiversFoldl_eq]
    simp only [List.nil_append]
    by_cases hs :
        (tracks.filterMap fun t =>
          (env.getStats t).map convertStatsReport) = []
    · have hany : (tracks.any fun t => (env.getStats t).isSome) = false := by
        rw [List.any_eq_false]
        intro t ht
        have hmap := List.filterMap_eq_nil_iff.mp hs t ht
        rw [Option.map_eq_none'] at hmap
        simp [hmap]
      rw [if_pos hs, ih, List.filter_cons]
      simp [hany]
    · have hany : (tracks.any fun t => (env.getStats t).isSome) = true := by
        rw [List.any_eq_true]
        by_contra hany'
        push_neg at hany'
        refine hs (List.filterMap_eq_nil_iff.mpr fun t ht => ?_)
        rw [Option.map_eq_none']
        have := hany' t ht
        exact Option.not_isSome_iff_eq_none.mp (by simpa using this)
      rw [if_neg hs, ih, List.filter_cons]
      simp [hany]

/-- C3: `collectReceiversStats` invokes the collector at most once per
stream, in the input mapping's iteration order, with the batch of
per-track report sequences and the stream identifier, and only for
streams for which at least one report was produced; streams yielding zero
reports are skipped and the collector never receives an empty batch. -/
theorem collectReceiversStats_spec (env : HostEnv)
    (receivers : List (String × List Nat)) :
    (collectReceiversStats env receivers =
      (receivers.filter fun p =>
        p.2.any fun t => (env.getStats t).isSome).map
        fun p =>
          (p.2.filterMap fun t => (env.getStats t).map convertStatsReport,
            p.1)) ∧
    (∀ inv ∈ collectReceiversStats env receivers, inv.1 ≠ []) ∧
    ((receivers.map Prod.fst).Nodup →
      ((collectReceiversStats env receivers).map Prod.snd).Nodup) := by
  refine ⟨collectReceiversStats_eq env receivers, ?_, ?_⟩
  · intro inv hinv
    rw [collectReceiversStats_eq] at hinv
    simp only [List.mem_map] at hinv
    obtain ⟨p, hp, hfp⟩ := hinv
    have hpred := (List.mem_filter.mp hp).2
    rw [← hfp]
    intro hnil
    simp only at hnil
    obtain ⟨t, ht, hsome⟩ := List.any_eq_true.mp hpred
    have hmap := List.filterMap_eq_nil_iff.mp hnil t ht
    rw [Option.map_eq_none'] at hmap
    rw [hmap] at hsome
    simp at hsome
  · intro hnodup
    rw [collectReceiversStats_eq, List.map_map]
    have hcomp : (Prod.snd ∘ fun p : String × List Nat =>
        (p.2.filterMap fun t => (env.getStats t).map convertStatsReport,
          p.1)) = Prod.fst := rfl
    rw [hcomp]
    exact hnodup.sublist ((List.filter_sublist receivers).map Prod.fst)

def receivers0 : List (String × List Nat) :=
  [("streamA", [1, 2]), ("streamB", [3])]

theorem collectReceiversStats_spec_witness :
    (([[10, 11], [12]], "streamA") :
        List (List StatsValue) × String).1 ≠ [] ∧
    ((collectReceiversStats envOk receivers0).map Prod.snd).Nodup :=
  ⟨(collectReceiversStats_spec envOk receivers0).2.1
      ([[10, 11], [12]], "streamA") (by decide),
    (collectReceiversStats_spec envOk receivers0).2.2 (by decide)⟩

/-- `collectSendersStats` equals: keep, in input order, exactly the
streams whose qualifying video/audio entries yielded a report, handing
each the batch with the video report (when any) before the audio report
(when any). -/
theorem collectSendersStats_eq (env : HostEnv)
    (senders : List (String × SenderMap)) :
    collectSendersStats env senders =
      senders.filterMap fun p =>
        let batch :=
          (if pairQualifies p.2.tracks.video then
            (pairReport env p.2.tracks.video).toList else []) ++
          (if pairQualifies p.2.tracks.audio then
            (pairReport env p.2.tracks.audio).toList else [])
        if batch = [] then none else some (batch, p.1) := by
  induction senders with
  | nil => rfl
  | cons hd rest ih =>
    obtain ⟨streamId, stream⟩ := hd
    rw [List.filterMap_cons]
    by_cases hqv : pairQualifies stream.tracks.video <;>
      by_cases hqa : pairQualifies stream.tracks.audio <;>
        cases hrv : pairReport env stream.tracks.video <;>
          cases hra : pairReport env stream.tracks.audio <;>
            simp [collectSendersStats, hqv, hqa, hrv, hra,
              List.concat_eq_append, ih]

/-- C10: in `collectSendersStats` a stream's video entry contributes a
report only when both its video track and its video sender are present
(likewise audio); when both qualify and yield reports the video report
precedes the audio report in the batch, and a stream whose batch is
empty never triggers the collector. -/
theorem collectSendersStats_spec (env : HostEnv)
    (senders : List (String × SenderMap)) :
    (collectSendersStats env senders =
      senders.filterMap fun p =>
        let batch :=
          (if pairQualifies p.2.tracks.video then
            (pairReport env p.2.tracks.video).toList else []) ++
          (if pairQualifies p.2.tracks.audio then
            (pairReport env p.2.tracks.audio).toList else [])
        if batch = [] then none else some (batch, p.1)) ∧
    (∀ inv ∈ collectSendersStats env senders, inv.1 ≠ []) ∧
    (∀ pair : SenderTrackPair,
      (pairQualifies (some pair) = true ↔
        pair.track.isSome = true ∧ pair.sender.isSome = true) ∧
      pairQualifies none = false) := by
  refine ⟨collectSendersStats_eq env senders, ?_, fun pair =>
    ⟨by simp [pairQualifies, Bool.and_eq_true], rfl⟩⟩
  intro inv hinv
  rw [collectSendersStats_eq] at hinv
  simp only [List.mem_filterMap] at hinv
  obtain ⟨p, hp, hfp⟩ := hinv
  by_cases hb :
      ((if pairQualifies p.2.tracks.video then
          (pairReport env p.2.tracks.video).toList else []) ++
        (if pairQualifies p.2.tracks.audio then
          (pairReport env p.2.tracks.audio).toList else [])) = []
  · rw [if_pos hb] at hfp
    exact absurd hfp (by simp)
  · rw [if_neg hb] at hfp
    cases Option.some.inj hfp
    exact hb

def senders0 : List (String × SenderMap) :=
  [("s1", { tracks := { video := some { track := some 1, sender := some 4 }
                        audio := some { track := some 2, sender := some 4 } } }),
    ("s2", { tracks := { video := some { track := some 3, sender := some 4 }
                         audio := none } })]

theorem collectSendersStats_spec_witness :
    (([[10, 11], [12]], "s1") : List (List StatsValue) × String).1 ≠ [] :=
  (collectSendersStats_spec envOk senders0).2.1 ([[10, 11], [12]], "s1")
    (by decide)

end WebRTCBrowser
